import Mathlib

/-!
Verification development for `scraper_connection.py` (phoenix_pipeline).

The module queries previously scraped news records for a date window from
one of two backends (a MongoDB-style document store, or an Elasticsearch
search index), filtered to a source whitelist, and optionally renders a
text artifact from the matching records.

Shallow embedding conventions:
* Python datetimes are modelled as `Int` timestamps (seconds); a
  `timedelta(days=1)` is the constant `86400`.
* A backend connection is modelled as the list of records it holds; a
  query is a filter over that list preserving store order.  The search
  index is modelled as returning all matching hits, with `hits.total`
  equal to the number of matches.
* The per-record content decoding step (`post['content'].encode(...)`,
  which can raise) is modelled explicitly: a record carries
  `content : Except String String`, either the decoded text or the
  exception message that decoding raises for this record.
* Printed diagnostics and structured log lines are collected in lists;
  file writes are collected as `(name, contents)` pairs.
-/

set_option maxRecDepth 100000

namespace ScraperConnection

/-- Decidable equality for `Except`, used to decide goals about concrete
records. -/
instance {α β : Type} [DecidableEq α] [DecidableEq β] : DecidableEq (Except α β) := fun a b =>
  match a, b with
  | Except.ok x, Except.ok y =>
    if h : x = y then Decidable.isTrue (by rw [h])
    else Decidable.isFalse (by intro hc; cases hc; exact h rfl)
  | Except.error x, Except.error y =>
    if h : x = y then Decidable.isTrue (by rw [h])
    else Decidable.isFalse (by intro hc; cases hc; exact h rfl)
  | Except.ok _, Except.error _ => Decidable.isFalse (by intro hc; cases hc)
  | Except.error _, Except.ok _ => Decidable.isFalse (by intro hc; cases hc)

/-- One scraped document, with the fields `scraper_connection.py` reads:
`source`, `content`, `url`, `date`, plus the document-store timestamp
`date_added`, the search-index timestamp `published_date`, and the
search-index `stanford` flag. -/
structure Record where
  source : String
  content : Except String String
  url : String
  date : String
  date_added : Int
  published_date : Int
  stanford : Int
  deriving Repr, DecidableEq

/-! ### Character-level string utilities

Python string operations used by the source (`str.replace`, substring
containment) modelled on `List Char`. -/

/-- Whether `p` is a leading segment of `s` (early-exit on first mismatch). -/
def isPref : List Char → List Char → Bool
  | [], _ => true
  | _ :: _, [] => false
  | a :: as, b :: bs => a == b && isPref as bs

/-- Number of positions of `s` at which `p` occurs (occurrences may overlap). -/
def countOcc (p : List Char) : List Char → Nat
  | [] => 0
  | c :: rest => (if isPref p (c :: rest) then 1 else 0) + countOcc p rest

/-- Whether `p` occurs somewhere in `s`. -/
def occursIn (p : List Char) : List Char → Bool
  | [] => isPref p []
  | c :: rest => isPref p (c :: rest) || occursIn p rest

/-- Fuel-driven worker for `replaceAll`: removes the leftmost occurrence of
the (nonempty) pattern `p` and continues scanning after it, exactly as
Python `str.replace(p, '')` does.  `fuel ≥ s.length` makes fuel exhaustion
unreachable. -/
def replaceFuel (p : List Char) : Nat → List Char → List Char
  | _, [] => []
  | 0, s => s
  | Nat.succ n, c :: rest =>
    if isPref p (c :: rest) then replaceFuel p n ((c :: rest).drop p.length)
    else c :: replaceFuel p n rest

/-- Python `s.replace(p, '')` for a nonempty pattern `p`: delete every
left-to-right non-overlapping occurrence of `p` from `s`. -/
def replaceAll (p s : List Char) : List Char := replaceFuel p s.length s

/-! ### Sentence segmentation

`utilities.sentence_segmenter` is code of this repository that is not under
`src/` (only its caller is). -/

/-- Worker for `sentence_segmenter`: accumulate characters of the current
sentence (reversed in `acc`); a full stop ends a sentence (kept on the
sentence); whitespace between sentences is dropped. -/
def segAux : List Char → List Char → List (List Char)
  | [], acc => if acc.isEmpty then [] else [acc.reverse]
  | c :: rest, acc =>
    if c == ' ' && acc.isEmpty then segAux rest acc
    else if c == '.' then (c :: acc).reverse :: segAux rest []
    else segAux rest (c :: acc)

/-- Modelled from the spec: `utilities.sentence_segmenter` is missing from
`src/`; the spec describes it as a sentence-boundary heuristic that splits
text into an ordered sequence of sentence strings.  This model ends a
sentence at each full stop (kept on the sentence) and strips the
inter-sentence whitespace, matching the spec's literal scenario. -/
def sentence_segmenter (s : String) : List String :=
  (segAux s.data []).map String.mk

/-! ### The result renderer (body of the `for num, post in enumerate(posts)`
loop of `query_all`, lines 64–78) -/

/-- The aljazeera browser-warning boilerplate string removed at lines 69–71. -/
def boilerplate : String :=
  "Caution iconAttention The browser or device you are using is out of date.  It has known security flaws and a limited feature set.  You will not see all the features of some websites.  Please update your browser."

/-- Source-specific cleanup (lines 68–71): for `aljazeera` records remove the
browser-warning boilerplate from the decoded content, otherwise leave the
content untouched. -/
def cleanContent (source : String) (content : String) : String :=
  if source = "aljazeera" then String.mk (replaceAll boilerplate.data content.data)
  else content

/-- First four segmented sentences joined by two spaces (line 72). -/
def makeHeader (content : String) : String :=
  String.intercalate "  " ((sentence_segmenter content).take 4)

/-- The formatted per-record block (lines 73–74). -/
def blockString (num : Nat) (post : Record) (content : String) : String :=
  toString num ++ "\t" ++ post.date ++ "\t" ++ post.url ++ "\n"
    ++ makeHeader (cleanContent post.source content) ++ "\n"

/-- The message printed when processing a record raises (line 77). -/
def errEntry (num : Nat) (e : String) : String :=
  "Error on entry " ++ toString num ++ ": " ++ e ++ "."

/-- One iteration of the render loop: decode the content (the step that can
raise), clean it, and format the block. -/
def processPost (num : Nat) (post : Record) : Except String String :=
  match post.content with
  | Except.error e => Except.error e
  | Except.ok content => Except.ok (blockString num post content)

/-- The render loop of lines 64–77: returns the emitted blocks (`output`)
and the error messages printed for records whose processing raised, both in
iteration order; the counter `num` advances on every record, failed or not. -/
def renderLoop (num : Nat) : List Record → List String × List String
  | [] => ([], [])
  | post :: rest =>
    match processPost num post with
    | Except.ok s =>
      let r := renderLoop (num + 1) rest
      (s :: r.1, r.2)
    | Except.error e =>
      let r := renderLoop (num + 1) rest
      (r.1, errEntry num e :: r.2)

/-! ### The query router (`query_all`) -/

/-- The filter of the artifact-building query (lines 61–63):
`date_added < lt_date` and `date_added > gt_date` and `source` in
`sources`. -/
def mongoSelStrict (lt_date gt_date : Int) (sources : List String) (p : Record) : Bool :=
  decide (p.date_added < lt_date) && decide (p.date_added > gt_date)
    && sources.contains p.source

/-- The filter of the query producing the returned record set (lines 80–82):
`date_added <= lt_date` and `date_added > gt_date` and `source` in
`sources`. -/
def mongoSelIncl (lt_date gt_date : Int) (sources : List String) (p : Record) : Bool :=
  decide (p.date_added ≤ lt_date) && decide (p.date_added > gt_date)
    && sources.contains p.source

/-- The search-index filter (lines 89–91): `published_date` strictly inside
the window, and `stanford = 1`. -/
def esSel (lt_date gt_date : Int) (p : Record) : Bool :=
  decide (p.published_date < lt_date) && decide (p.published_date > gt_date)
    && decide (p.stanford = 1)

/-- The count line printed and logged at lines 94–99. -/
def countMsg (n : Nat) : String := "Total number of stories: " ++ toString n

/-- The values `query_all` produces: the returned record set, the rendered
artifact (`final_out`), what it printed, and what it logged. -/
structure QueryOut where
  posts : List Record
  final_out : String
  prints : List String
  logs : List String
  deriving Repr, DecidableEq

/-- The function `query_all(collection, lt_date, gt_date, sources, elasticsearch, index,
write_file)` of lines 11–103.  The `Except` layer models Python's ability to
raise out of the function; this body contains no `raise`, so it always
returns `Except.ok`.  The `index` argument selects the search index; the
modelled connection `collection` already holds that index's records. -/
def query_all (collection : List Record) (lt_date gt_date : Int) (sources : List String)
    (elasticsearch : Bool) (index : String) (write_file : Bool) :
    Except String QueryOut :=
  if !elasticsearch then
    let rendered :=
      if write_file then
        let artifactPosts := collection.filter (mongoSelStrict lt_date gt_date sources)
        let r := renderLoop 0 artifactPosts
        (String.intercalate "\n" r.1, r.2)
      else ("", [])
    let posts := collection.filter (mongoSelIncl lt_date gt_date sources)
    Except.ok ⟨posts, rendered.1,
      rendered.2 ++ [countMsg posts.length], [countMsg posts.length]⟩
  else
    let hits := collection.filter (esSel lt_date gt_date)
    Except.ok ⟨hits, "", [countMsg hits.length], [countMsg hits.length]⟩

/-! ### The day-oriented entry point (`main`, lines 131–194) -/

/-- A calendar date, the `process_date` argument of `main`. -/
structure Date where
  year : Nat
  month : Nat
  day : Nat
  deriving Repr, DecidableEq

/-- Day number of a civil date (days since the 1970-01-01 epoch), the
standard civil-from-days arithmetic underlying `datetime.datetime`. -/
def dayNumber (dt : Date) : Int :=
  let y : Int := if dt.month ≤ 2 then (dt.year : Int) - 1 else (dt.year : Int)
  let m : Int := (dt.month : Int)
  let d : Int := (dt.day : Int)
  let era : Int := y / 400
  let yoe : Int := y - era * 400
  let mp : Int := (m + 9) % 12
  let doy : Int := (153 * mp + 2) / 5 + d - 1
  let doe : Int := yoe * 365 + yoe / 4 - yoe / 100 + doy
  era * 146097 + doe - 719468

/-- The timestamp `datetime.datetime(year, month, day)`: midnight of the
date, in seconds. -/
def midnight (dt : Date) : Int := 86400 * dayNumber dt

/-- One day, as `datetime.timedelta(days=1)` in seconds. -/
def oneDay : Int := 86400

/-- Python `'{:02d}'.format(n)`: decimal, left-padded with `0` to at least
two digits. -/
def pad2 (n : Nat) : String :=
  if n < 10 then "0" ++ toString n else toString n

/-- The fields of the `file_details` config tuple that `main` reads once the
connection itself is treated as a collaborator. -/
structure FileDetails where
  elasticsearch : Bool
  index : String
  deriving Repr, DecidableEq

/-- What `main` produces: its return value (`results`, `filename`) plus its
observable effects — printed diagnostics, log lines, and files written as
`(name, contents)` pairs. -/
structure MainOut where
  results : List Record
  filename : String
  prints : List String
  logs : List String
  filesWritten : List (String × String)
  deriving Repr, DecidableEq

/-- The diagnostic printed at line 192 when a text artifact exists but no
filename stem was supplied. -/
def needFilestemMsg : String := "Need filestem to write results to file."

/-- The function `main(process_date, file_details, write_file, file_stem)` of lines
131–194.  The connection is modelled by the record list `db` it holds, and
the source whitelist `_get_sources` loads from `source_keys.txt` by the
list `sources`.  Python's truthiness test `if file_stem:` is false both for
`None` and for the empty string. -/
def main (db : List Record) (sources : List String) (process_date : Date)
    (file_details : FileDetails) (write_file : Bool) (file_stem : Option String) :
    Except String MainOut :=
  let less_than₀ := midnight process_date
  let greater_than := less_than₀ - oneDay
  let less_than := less_than₀ + oneDay
  match query_all db less_than greater_than sources file_details.elasticsearch
      file_details.index write_file with
  | Except.error e => Except.error e
  | Except.ok q =>
    let text := q.final_out
    if text = "" then
      Except.ok ⟨q.posts, "", q.prints, q.logs, []⟩
    else
      match file_stem with
      | some stem =>
        if stem = "" then
          Except.ok ⟨q.posts, "", q.prints ++ [needFilestemMsg], q.logs, []⟩
        else
          let filename := stem ++ pad2 process_date.year ++ pad2 process_date.month
            ++ pad2 process_date.day ++ ".txt"
          Except.ok ⟨q.posts, filename, q.prints, q.logs, [(filename, text)]⟩
      | none => Except.ok ⟨q.posts, "", q.prints ++ [needFilestemMsg], q.logs, []⟩

/-! ### General lemmas -/

/-- The second component of a pair in an enumeration is a member of the
enumerated list. -/
theorem snd_mem_of_enumFrom {α : Type} {q : Nat × α} :
    ∀ (n : Nat) (l : List α), q ∈ List.enumFrom n l → q.2 ∈ l := by
  intro n l
  induction l generalizing n with
  | nil => intro h; simp at h
  | cons x xs ih =>
    intro h
    rw [List.enumFrom_cons] at h
    rcases List.mem_cons.mp h with h | h
    · subst h; exact List.mem_cons_self _ _
    · exact List.mem_cons_of_mem _ (ih _ h)

/-- The blocks emitted by the render loop started at counter `n` are the
successfully processed records of the enumeration of the list from `n`,
each formatted with its enumeration index. -/
theorem renderLoop_fst (records : List Record) : ∀ n : Nat,
    (renderLoop n records).1 = (List.enumFrom n records).filterMap fun ip =>
      match (ip.2).content with
      | Except.ok c => some (blockString ip.1 ip.2 c)
      | Except.error _ => none := by
  induction records with
  | nil => intro n; rfl
  | cons post rest ih =>
    intro n
    cases h : post.content with
    | ok c => simp [renderLoop, processPost, h, ih]
    | error e => simp [renderLoop, processPost, h, ih]

/-- The error messages emitted by the render loop started at counter `n`
are exactly the failing records of the enumeration from `n`, each logged
with its enumeration index and its error message. -/
theorem renderLoop_snd (records : List Record) : ∀ n : Nat,
    (renderLoop n records).2 = (List.enumFrom n records).filterMap fun ip =>
      match (ip.2).content with
      | Except.ok _ => none
      | Except.error e => some (errEntry ip.1 e) := by
  induction records with
  | nil => intro n; rfl
  | cons post rest ih =>
    intro n
    cases h : post.content with
    | ok c => simp [renderLoop, processPost, h, ih]
    | error e => simp [renderLoop, processPost, h, ih]

/-- Closed form of `query_all` on the document-store path. -/
theorem query_all_docstore_eq (collection : List Record) (lt_date gt_date : Int)
    (sources : List String) (index : String) (write_file : Bool) :
    query_all collection lt_date gt_date sources false index write_file =
      Except.ok ⟨collection.filter (mongoSelIncl lt_date gt_date sources),
        (if write_file then
          String.intercalate "\n"
            (renderLoop 0 (collection.filter (mongoSelStrict lt_date gt_date sources))).1
         else ""),
        (if write_file then
          (renderLoop 0 (collection.filter (mongoSelStrict lt_date gt_date sources))).2
         else []) ++
          [countMsg (collection.filter (mongoSelIncl lt_date gt_date sources)).length],
        [countMsg (collection.filter (mongoSelIncl lt_date gt_date sources)).length]⟩ := by
  cases write_file <;> rfl

/-- Closed form of `query_all` on the search-index path. -/
theorem query_all_es_eq (collection : List Record) (lt_date gt_date : Int)
    (sources : List String) (index : String) (write_file : Bool) :
    query_all collection lt_date gt_date sources true index write_file =
      Except.ok ⟨collection.filter (esSel lt_date gt_date), "",
        [countMsg (collection.filter (esSel lt_date gt_date)).length],
        [countMsg (collection.filter (esSel lt_date gt_date)).length]⟩ := rfl

/-! ### Claim C1 -/

/-- C1 (amended): if the search-index backend is selected and a text
artifact is also requested, `query_all` surfaces no error at all: it
returns normally with an empty artifact string.  No
`UnsupportedCombinationError` exists in the code; the combination is
unchecked (comment at line 57). -/
theorem C1_es_write_file_returns_normally (collection : List Record)
    (lt_date gt_date : Int) (sources : List String) (index : String) :
    ∃ out, query_all collection lt_date gt_date sources true index true = Except.ok out ∧
      out.final_out = "" :=
  ⟨_, rfl, rfl⟩

/-- A search-index hit inside the window, for the C1 counterexample. -/
def c1rec : Record := ⟨"reuters", Except.ok "x", "u", "d", 0, 3, 1⟩

/-- C1 is false as stated: with the search-index backend selected and
`write_file = true`, `query_all` returns normally (`Except.ok`, no raised
error) and the artifact component it returns is the empty string. -/
theorem C1_counterexample :
    query_all [c1rec] 5 0 ["reuters"] true "idx" true =
      Except.ok ⟨[c1rec], "", [countMsg 1], [countMsg 1]⟩ := by
  decide

/-! ### Claim C2 -/

/-- C2 (amended): a record whose timestamp equals `gt_date` is excluded by
both backend strategies; a record whose timestamp equals `lt_date` is
always included in the record set returned by the document-store path
(whether or not a text artifact is requested) while being excluded from
the stricter artifact-building query, and is always excluded by the
search-index path. -/
theorem C2_boundary_behaviour (collection : List Record) (lt_date gt_date : Int)
    (sources : List String) (index : String) (write_file : Bool) (r : Record)
    (hw : gt_date < lt_date) :
    (∀ out, query_all collection lt_date gt_date sources false index write_file =
        Except.ok out →
      (r.date_added = gt_date → r ∉ out.posts) ∧
      (r.date_added = lt_date →
        (r ∈ out.posts ↔ r ∈ collection ∧ sources.contains r.source = true))) ∧
    ((r.date_added = gt_date ∨ r.date_added = lt_date) →
      mongoSelStrict lt_date gt_date sources r = false) ∧
    (∀ out, query_all collection lt_date gt_date sources true index write_file =
        Except.ok out →
      (r.published_date = gt_date ∨ r.published_date = lt_date) → r ∉ out.posts) := by
  refine ⟨?_, ?_, ?_⟩
  · intro out hq
    rw [query_all_docstore_eq] at hq
    injection hq with h
    subst h
    constructor
    · intro hgt hmem
      rw [List.mem_filter] at hmem
      have h2 := hmem.2
      simp [mongoSelIncl, hgt] at h2
    · intro hlt
      rw [List.mem_filter]
      simp [mongoSelIncl, hlt, hw]
  · intro hcase
    rcases hcase with h | h <;> simp [mongoSelStrict, h]
  · intro out hq
    rw [query_all_es_eq] at hq
    injection hq with h
    subst h
    intro hcase hmem
    rw [List.mem_filter] at hmem
    have h2 := hmem.2
    rcases hcase with h | h <;> simp [esSel, h] at h2

/-- Witness for C2 at a concrete input. -/
theorem C2_boundary_behaviour_witness :
    (∀ out, query_all [] 1 0 ["s"] false "i" false = Except.ok out →
      ((⟨"s", Except.ok "x", "u", "d", 0, 0, 0⟩ : Record).date_added = 0 →
        (⟨"s", Except.ok "x", "u", "d", 0, 0, 0⟩ : Record) ∉ out.posts) ∧
      ((⟨"s", Except.ok "x", "u", "d", 0, 0, 0⟩ : Record).date_added = 1 →
        ((⟨"s", Except.ok "x", "u", "d", 0, 0, 0⟩ : Record) ∈ out.posts ↔
          (⟨"s", Except.ok "x", "u", "d", 0, 0, 0⟩ : Record) ∈ ([] : List Record) ∧
            (["s"] : List String).contains
              (⟨"s", Except.ok "x", "u", "d", 0, 0, 0⟩ : Record).source = true))) ∧
    (((⟨"s", Except.ok "x", "u", "d", 0, 0, 0⟩ : Record).date_added = 0 ∨
        (⟨"s", Except.ok "x", "u", "d", 0, 0, 0⟩ : Record).date_added = 1) →
      mongoSelStrict 1 0 ["s"] ⟨"s", Except.ok "x", "u", "d", 0, 0, 0⟩ = false) ∧
    (∀ out, query_all [] 1 0 ["s"] true "i" false = Except.ok out →
      ((⟨"s", Except.ok "x", "u", "d", 0, 0, 0⟩ : Record).published_date = 0 ∨
        (⟨"s", Except.ok "x", "u", "d", 0, 0, 0⟩ : Record).published_date = 1) →
      (⟨"s", Except.ok "x", "u", "d", 0, 0, 0⟩ : Record) ∉ out.posts) :=
  C2_boundary_behaviour [] 1 0 ["s"] "i" false ⟨"s", Except.ok "x", "u", "d", 0, 0, 0⟩
    (by decide)

/-- The record at the upper bound for the C2 counterexample. -/
def c2rec : Record := ⟨"reuters", Except.ok "x", "u", "d", 5, 0, 0⟩

/-- C2 is false as stated at this input: `c2rec.date_added` equals the
upper bound `lt_date = 5` and a text artifact is requested
(`write_file = true`) on the document-store path, yet `c2rec` is included
in the returned record set (`posts = [c2rec]`); only the artifact-building
query excludes it (the artifact is empty). -/
theorem C2_counterexample :
    c2rec.date_added = (5 : Int) ∧
    query_all [c2rec] 5 0 ["reuters"] false "idx" true =
      Except.ok ⟨[c2rec], "", [countMsg 1], [countMsg 1]⟩ := by
  constructor
  · rfl
  · decide

/-! ### Claim C3 -/

/-- C3: for every well-formed interval and non-empty source set, on either
backend, the total count reported (printed and logged) by `query_all`
equals the number of records obtained by fully draining the returned
record collection. -/
theorem C3_count_equals_drained_length (collection : List Record)
    (lt_date gt_date : Int) (sources : List String) (elasticsearch : Bool)
    (index : String) (write_file : Bool)
    (hw : gt_date < lt_date) (hs : sources ≠ []) :
    ∀ out, query_all collection lt_date gt_date sources elasticsearch index write_file =
        Except.ok out →
      out.logs = [countMsg out.posts.length] ∧ countMsg out.posts.length ∈ out.prints := by
  intro out hq
  cases elasticsearch
  · rw [query_all_docstore_eq] at hq
    injection hq with h
    subst h
    exact ⟨rfl, List.mem_append_right _ (List.mem_singleton.mpr rfl)⟩
  · rw [query_all_es_eq] at hq
    injection hq with h
    subst h
    exact ⟨rfl, List.mem_singleton.mpr rfl⟩

/-- Witness for C3 at a concrete input. -/
theorem C3_count_equals_drained_length_witness :
    (⟨[], "", [countMsg 0], [countMsg 0]⟩ : QueryOut).logs =
      [countMsg (⟨[], "", [countMsg 0], [countMsg 0]⟩ : QueryOut).posts.length] ∧
    countMsg (⟨[], "", [countMsg 0], [countMsg 0]⟩ : QueryOut).posts.length ∈
      (⟨[], "", [countMsg 0], [countMsg 0]⟩ : QueryOut).prints :=
  C3_count_equals_drained_length [] 1 0 ["s"] false "i" false (by decide) (by decide)
    ⟨[], "", [countMsg 0], [countMsg 0]⟩ rfl

/-! ### Claim C4 -/

/-- The single record of the literal scenario of the spec. -/
def c4rec : Record := ⟨"reuters",
  Except.ok "Sentence one. Sentence two. Sentence three. Sentence four. Sentence five.",
  "u1", "2024-01-01", 1, 0, 0⟩

/-- C4: for the literal single-record scenario — source set `reuters`, one
matching record with `date_added` inside the window `(0, 2)`, the
five-sentence content, document-store backend with the text artifact
requested — the record is returned, the count reported is 1, and the
rendered artifact is exactly the tab-separated index/date/url line followed
by the first four sentences joined by two spaces. -/
theorem C4_literal_scenario :
    query_all [c4rec] 2 0 ["reuters"] false "idx" true =
      Except.ok ⟨[c4rec],
        "0\t2024-01-01\tu1\nSentence one.  Sentence two.  Sentence three.  Sentence four.\n",
        [countMsg 1], [countMsg 1]⟩ := by
  rfl

/-! ### Claim C5 -/

/-- C5: per-record processing failures during artifact rendering are
caught: each failing record is logged with its positional index and its
error message; only the failing records are dropped from the emitted
blocks; if every record fails the artifact is the empty string; and the
query operation still returns normally (`Except.ok`), so no failure
propagates to the caller. -/
theorem C5_render_failures_isolated (records : List Record) :
    ((renderLoop 0 records).2 = records.enum.filterMap fun ip =>
      match (ip.2).content with
      | Except.ok _ => none
      | Except.error e => some (errEntry ip.1 e)) ∧
    ((renderLoop 0 records).1 = records.enum.filterMap fun ip =>
      (processPost ip.1 ip.2).toOption) ∧
    ((∀ p ∈ records, ∃ e, p.content = Except.error e) →
      String.intercalate "\n" (renderLoop 0 records).1 = "") ∧
    (∀ (lt_date gt_date : Int) (sources : List String) (index : String), ∃ out,
      query_all records lt_date gt_date sources false index true = Except.ok out) := by
  refine ⟨renderLoop_snd records 0, ?_, ?_, ?_⟩
  · rw [renderLoop_fst records 0]
    apply List.filterMap_congr
    intro ip _
    cases h : (ip.2).content <;> simp [processPost, h, Except.toOption]
  · intro hall
    rw [renderLoop_fst records 0]
    have hnil : (List.enumFrom 0 records).filterMap (fun ip =>
        match (ip.2).content with
        | Except.ok c => some (blockString ip.1 ip.2 c)
        | Except.error _ => none) = [] := by
      rw [List.filterMap_eq_nil_iff]
      intro ip hip
      obtain ⟨e, he⟩ := hall ip.2 (snd_mem_of_enumFrom 0 records hip)
      rw [he]
    rw [hnil]
    rfl
  · intro lt_date gt_date sources index
    exact ⟨_, query_all_docstore_eq records lt_date gt_date sources index true⟩

/-- Witness for C5: a single undecodable record yields an empty artifact,
with the failure logged at index 0. -/
theorem C5_render_failures_isolated_witness :
    String.intercalate "\n"
      (renderLoop 0 [⟨"s", Except.error "boom", "u", "d", 0, 0, 0⟩]).1 = "" :=
  (C5_render_failures_isolated [⟨"s", Except.error "boom", "u", "d", 0, 0, 0⟩]).2.2.1
    (by
      intro p hp
      rw [List.mem_singleton] at hp
      subst hp
      exact ⟨"boom", rfl⟩)

/-! ### Claim C10 -/

/-- C10: the index printed in each emitted block is the record's 0-based
position in the full iteration over all queried records, failed records
included: the blocks are the enumeration of all records filtered to the
successfully processed ones, each formatted with its enumeration index.
Concretely, when the record at position 0 fails and the record at position
1 succeeds, the only emitted block carries index 1 — the failed record
consumed index 0 and it is never reassigned. -/
theorem C10_block_index_is_iteration_position (records : List Record) :
    ((renderLoop 0 records).1 = records.enum.filterMap fun ip =>
      match (ip.2).content with
      | Except.ok c => some (blockString ip.1 ip.2 c)
      | Except.error _ => none) ∧
    (renderLoop 0 [⟨"s", Except.error "bad", "u0", "d0", 0, 0, 0⟩,
        ⟨"s", Except.ok "Hi.", "u1", "d1", 0, 0, 0⟩]).1 =
      ["1\td1\tu1\nHi.\n"] := by
  refine ⟨renderLoop_fst records 0, ?_⟩
  decide

/-! ### Claim C8 -/

/-- C8: for every record whose source is not `"aljazeera"`, the renderer's
boilerplate-removal step is the identity on the decoded content: the
content passed to sentence segmentation is exactly the decoded original. -/
theorem C8_non_aljazeera_cleanup_identity (source content : String)
    (h : source ≠ "aljazeera") :
    cleanContent source content = content := by
  simp [cleanContent, h]

/-- Witness for C8 at a concrete input. -/
theorem C8_non_aljazeera_cleanup_identity_witness :
    cleanContent "reuters" "Some article text." = "Some article text." :=
  C8_non_aljazeera_cleanup_identity "reuters" "Some article text." (by decide)

/-! ### Claim C7 -/

/-- Truth of `isPref p s` means `s` literally starts with `p`. -/
theorem isPref_eq_append : ∀ (p s : List Char), isPref p s = true →
    s = p ++ s.drop p.length := by
  intro p
  induction p with
  | nil => intro s _; rfl
  | cons a as ih =>
    intro s h
    cases s with
    | nil => simp [isPref] at h
    | cons b bs =>
      rw [isPref, Bool.and_eq_true] at h
      have hab : a = b := eq_of_beq h.1
      subst hab
      have hbs := ih bs h.2
      rw [List.length_cons, List.drop_succ_cons]
      exact congrArg (a :: ·) hbs

/-- If the pattern occurs nowhere, `replaceFuel` is the identity for any
fuel. -/
theorem countOcc_zero_replaceFuel (p : List Char) :
    ∀ s, countOcc p s = 0 → ∀ f, replaceFuel p f s = s := by
  intro s
  induction s with
  | nil => intro _ f; cases f <;> rfl
  | cons c rest ih =>
    intro h f
    rw [countOcc] at h
    have hp : isPref p (c :: rest) = false := by
      cases hq : isPref p (c :: rest)
      · rfl
      · rw [hq] at h; simp at h
    rw [hp] at h
    simp only [Bool.false_eq_true, if_false, Nat.zero_add] at h
    cases f with
    | zero => rfl
    | succ n =>
      simp only [replaceFuel, hp, Bool.false_eq_true, if_false]
      rw [ih h n]

/-- Dropping a prefix cannot increase the occurrence count. -/
theorem countOcc_drop_le (p : List Char) : ∀ (k : Nat) (s : List Char),
    countOcc p (s.drop k) ≤ countOcc p s := by
  intro k
  induction k with
  | zero => intro s; simp
  | succ n ih =>
    intro s
    cases s with
    | nil => simp
    | cons c rest =>
      rw [List.drop_succ_cons]
      calc countOcc p (rest.drop n) ≤ countOcc p rest := ih rest
        _ ≤ countOcc p (c :: rest) := by rw [countOcc]; omega

/-- When the (nonempty) pattern occurs exactly once in `s`, Python-style
replacement by the empty string deletes exactly that occurrence. -/
theorem countOcc_one_replace (p : List Char) (hp : p ≠ []) :
    ∀ s, countOcc p s = 1 →
      ∃ a b, s = a ++ p ++ b ∧ ∀ f, s.length ≤ f → replaceFuel p f s = a ++ b := by
  intro s
  induction s with
  | nil => intro h; rw [countOcc] at h; omega
  | cons c rest ih =>
    intro h
    rw [countOcc] at h
    by_cases hpre : isPref p (c :: rest) = true
    · rw [if_pos hpre] at h
      have hrest : countOcc p rest = 0 := by omega
      refine ⟨[], (c :: rest).drop p.length, ?_, ?_⟩
      · simpa using isPref_eq_append p (c :: rest) hpre
      · intro f hf
        cases f with
        | zero => simp at hf
        | succ n =>
          simp only [replaceFuel, hpre, if_true]
          apply countOcc_zero_replaceFuel
          cases p with
          | nil => exact absurd rfl hp
          | cons q qs =>
            rw [List.length_cons, List.drop_succ_cons]
            have := countOcc_drop_le (q :: qs) qs.length rest
            omega
    · rw [if_neg hpre] at h
      simp only [Nat.zero_add] at h
      obtain ⟨a, b, hab, hrepl⟩ := ih h
      refine ⟨c :: a, b, by rw [List.cons_append]; exact congrArg (c :: ·) hab, ?_⟩
      intro f hf
      cases f with
      | zero => simp at hf
      | succ n =>
        have hpre' : isPref p (c :: rest) = false := by
          cases hq : isPref p (c :: rest)
          · rfl
          · exact absurd hq hpre
        simp only [replaceFuel, hpre', Bool.false_eq_true, if_false]
        rw [List.length_cons] at hf
        rw [hrepl n (by omega)]
        rfl

/-- C7 (amended): for every record content containing the aljazeera
browser-warning boilerplate exactly once, the cleanup step performed for
`source = "aljazeera"` deletes exactly that occurrence before
segmentation.  The rendered header can nonetheless contain the boilerplate
again, because the header re-joins the segmented sentences with two
spaces, which can reconstruct the boilerplate out of boilerplate-free text
(see the counterexample). -/
theorem C7_removal_deletes_single_occurrence (content : String)
    (h : countOcc boilerplate.data content.data = 1) :
    ∃ a b, content.data = a ++ boilerplate.data ++ b ∧
      (cleanContent "aljazeera" content).data = a ++ b := by
  obtain ⟨a, b, hab, hrepl⟩ :=
    countOcc_one_replace boilerplate.data (by decide) content.data h
  refine ⟨a, b, hab, ?_⟩
  rw [cleanContent, if_pos rfl]
  exact hrepl content.data.length (Nat.le_refl _)

/-- Witness for C7: the content that is exactly the boilerplate contains it
exactly once, and cleanup deletes it entirely. -/
theorem C7_removal_deletes_single_occurrence_witness :
    countOcc boilerplate.data boilerplate.data = 1 ∧
    ∃ a b, boilerplate.data = a ++ boilerplate.data ++ b ∧
      (cleanContent "aljazeera" boilerplate).data = a ++ b :=
  ⟨by decide, C7_removal_deletes_single_occurrence boilerplate (by decide)⟩

/-- The single-spaced variant of the boilerplate: the same four sentences
separated by one space instead of two.  It does not contain the
boilerplate, but segmenting it and re-joining the sentences with two
spaces reproduces the boilerplate exactly. -/
def bpSingleSpaced : String :=
  "Caution iconAttention The browser or device you are using is out of date. It has known security flaws and a limited feature set. You will not see all the features of some websites. Please update your browser."

/-- An aljazeera record whose content contains the boilerplate exactly
once, followed by the single-spaced variant. -/
def c7rec : Record :=
  ⟨"aljazeera", Except.ok (boilerplate ++ bpSingleSpaced), "u1", "2024-01-01", 1, 0, 0⟩

/-- C7 is false as stated at this input: the content of `c7rec` (source
`"aljazeera"`) contains the boilerplate exactly once, yet the header
rendered for it — first four segmented sentences of the cleaned content
joined by two spaces — contains the boilerplate substring: removal leaves
the single-spaced variant, whose sentences re-joined with two spaces
reproduce the boilerplate. -/
theorem C7_counterexample :
    c7rec.source = "aljazeera" ∧
    c7rec.content = Except.ok (boilerplate ++ bpSingleSpaced) ∧
    countOcc boilerplate.data (boilerplate ++ bpSingleSpaced).data = 1 ∧
    occursIn boilerplate.data
      (makeHeader (cleanContent c7rec.source (boilerplate ++ bpSingleSpaced))).data = true := by
  refine ⟨rfl, rfl, by decide, by decide⟩

/-! ### Claim C6 -/

/-- C6 (amended): when a text artifact was produced but no filename stem is
supplied to `main`, the diagnostic message is emitted, no file is written,
and the caller receives the queried record collection together with an
empty filename; the rendered text itself is not part of the return value
(the return value is the pair of results and filename). -/
theorem C6_missing_stem_behaviour (db : List Record) (sources : List String)
    (d : Date) (fd : FileDetails) (write_file : Bool) (q : QueryOut)
    (hq : query_all db (midnight d + oneDay) (midnight d - oneDay) sources
        fd.elasticsearch fd.index write_file = Except.ok q)
    (ht : q.final_out ≠ "") :
    main db sources d fd write_file none =
      Except.ok ⟨q.posts, "", q.prints ++ [needFilestemMsg], q.logs, []⟩ := by
  simp only [main, hq, ht, if_false]

/-- A decodable record inside the window of process date 2024-02-03, for
claim C6. -/
def c6rec : Record :=
  ⟨"reuters", Except.ok "Hello there. Bye.", "u9", "2024-02-02",
    midnight ⟨2024, 2, 3⟩, 0, 0⟩

/-- Witness for C6 at a concrete input. -/
theorem C6_missing_stem_behaviour_witness :
    main [c6rec] ["reuters"] ⟨2024, 2, 3⟩ ⟨false, "idx"⟩ true none =
      Except.ok ⟨(⟨[c6rec], "0\t2024-02-02\tu9\nHello there.  Bye.\n",
          [countMsg 1], [countMsg 1]⟩ : QueryOut).posts, "",
        (⟨[c6rec], "0\t2024-02-02\tu9\nHello there.  Bye.\n",
          [countMsg 1], [countMsg 1]⟩ : QueryOut).prints ++ [needFilestemMsg],
        (⟨[c6rec], "0\t2024-02-02\tu9\nHello there.  Bye.\n",
          [countMsg 1], [countMsg 1]⟩ : QueryOut).logs, []⟩ :=
  C6_missing_stem_behaviour [c6rec] ["reuters"] ⟨2024, 2, 3⟩ ⟨false, "idx"⟩ true
    ⟨[c6rec], "0\t2024-02-02\tu9\nHello there.  Bye.\n", [countMsg 1], [countMsg 1]⟩
    (by decide) (by decide)

/-- C6 is false as stated at this input: the artifact produced is the
nonempty rendered text shown in the first conjunct, yet the value `main`
returns to the caller is the pair of the record collection and the empty
filename — the rendered text is in neither component, so the caller does
not receive it. -/
theorem C6_counterexample :
    query_all [c6rec] (midnight ⟨2024, 2, 3⟩ + oneDay) (midnight ⟨2024, 2, 3⟩ - oneDay)
        ["reuters"] false "idx" true =
      Except.ok ⟨[c6rec], "0\t2024-02-02\tu9\nHello there.  Bye.\n",
        [countMsg 1], [countMsg 1]⟩ ∧
    main [c6rec] ["reuters"] ⟨2024, 2, 3⟩ ⟨false, "idx"⟩ true none =
      Except.ok ⟨[c6rec], "", [countMsg 1, needFilestemMsg], [countMsg 1], []⟩ ∧
    ("0\t2024-02-02\tu9\nHello there.  Bye.\n" : String) ≠ "" := by
  refine ⟨by decide, by decide, by decide⟩

/-! ### Claim C9 -/

/-- For two-digit-or-longer numbers the zero-padding of `'{:02d}'` is the
plain decimal numeral. -/
theorem pad2_eq_toString (n : Nat) (h : 10 ≤ n) : pad2 n = toString n := by
  rw [pad2, if_neg (by omega)]

/-- C9 (amended): for every calendar date `d`, the day-oriented entry point
queries the window from midnight of `d` minus one day (exclusive lower
bound) to midnight of `d` plus one day (upper bound) on either backend,
and when a file is written its name is the supplied stem followed by `d`'s
year, month and day, each zero-padded to at least two digits (for years of
at least two digits the year component is the year's plain decimal
numeral), with extension `".txt"`. -/
theorem C9_window_and_filename (db : List Record) (sources : List String) (d : Date)
    (fd : FileDetails) (write_file : Bool) (stem : Option String) :
    ∀ out, main db sources d fd write_file stem = Except.ok out →
      (fd.elasticsearch = false →
        ∀ r, r ∈ out.results ↔
          r ∈ db ∧
            mongoSelIncl (midnight d + oneDay) (midnight d - oneDay) sources r = true) ∧
      (fd.elasticsearch = true →
        ∀ r, r ∈ out.results ↔
          r ∈ db ∧ esSel (midnight d + oneDay) (midnight d - oneDay) r = true) ∧
      (∀ fn t, (fn, t) ∈ out.filesWritten →
        ∃ s, stem = some s ∧
          fn = s ++ pad2 d.year ++ pad2 d.month ++ pad2 d.day ++ ".txt") ∧
      (∀ n : Nat, 10 ≤ n → pad2 n = toString n) := by
  intro out hout
  simp only [main] at hout
  cases hfd : fd.elasticsearch <;> rw [hfd] at hout
  case false =>
    rw [query_all_docstore_eq] at hout
    simp only [] at hout
    have key : out.results =
        db.filter (mongoSelIncl (midnight d + oneDay) (midnight d - oneDay) sources) ∧
        ∀ fn t, (fn, t) ∈ out.filesWritten → ∃ s, stem = some s ∧
          fn = s ++ pad2 d.year ++ pad2 d.month ++ pad2 d.day ++ ".txt" := by
      repeat' split at hout
      all_goals injection hout with h
      all_goals subst h
      all_goals refine ⟨rfl, ?_⟩
      all_goals intro fn t hmem
      all_goals simp at hmem
      all_goals exact ⟨_, rfl, hmem.1⟩
    refine ⟨?_, fun hc => absurd hc (by decide), key.2,
      fun n hn => pad2_eq_toString n hn⟩
    intro _ r
    rw [key.1]
    exact List.mem_filter
  case true =>
    rw [query_all_es_eq] at hout
    simp only [] at hout
    have key : out.results =
        db.filter (esSel (midnight d + oneDay) (midnight d - oneDay)) ∧
        ∀ fn t, (fn, t) ∈ out.filesWritten → ∃ s, stem = some s ∧
          fn = s ++ pad2 d.year ++ pad2 d.month ++ pad2 d.day ++ ".txt" := by
      repeat' split at hout
      all_goals injection hout with h
      all_goals subst h
      all_goals refine ⟨rfl, ?_⟩
      all_goals intro fn t hmem
      all_goals simp at hmem
      all_goals exact ⟨_, rfl, hmem.1⟩
    refine ⟨fun hc => absurd hc (by decide), ?_, key.2,
      fun n hn => pad2_eq_toString n hn⟩
    intro _ r
    rw [key.1]
    exact List.mem_filter

/-- A decodable record inside the window of process date 2024-03-05, for
the C9 witness. -/
def c9wrec : Record :=
  ⟨"reuters", Except.ok "One. Two. Three.", "u2", "2024-03-04",
    midnight ⟨2024, 3, 5⟩, 0, 0⟩

/-- The full observable outcome of `main` at the C9 witness input. -/
def c9wout : MainOut :=
  ⟨[c9wrec], "s20240305.txt", [countMsg 1], [countMsg 1],
    [("s20240305.txt", "0\t2024-03-04\tu2\nOne.  Two.  Three.\n")]⟩

/-- Witness for C9 at a concrete input. -/
theorem C9_window_and_filename_witness :
    ((⟨false, "idx"⟩ : FileDetails).elasticsearch = false →
      ∀ r, r ∈ c9wout.results ↔
        r ∈ [c9wrec] ∧ mongoSelIncl (midnight ⟨2024, 3, 5⟩ + oneDay)
          (midnight ⟨2024, 3, 5⟩ - oneDay) ["reuters"] r = true) ∧
    ((⟨false, "idx"⟩ : FileDetails).elasticsearch = true →
      ∀ r, r ∈ c9wout.results ↔
        r ∈ [c9wrec] ∧ esSel (midnight ⟨2024, 3, 5⟩ + oneDay)
          (midnight ⟨2024, 3, 5⟩ - oneDay) r = true) ∧
    (∀ fn t, (fn, t) ∈ c9wout.filesWritten →
      ∃ s, (some "s" : Option String) = some s ∧
        fn = s ++ pad2 2024 ++ pad2 3 ++ pad2 5 ++ ".txt") ∧
    (∀ n : Nat, 10 ≤ n → pad2 n = toString n) :=
  C9_window_and_filename [c9wrec] ["reuters"] ⟨2024, 3, 5⟩ ⟨false, "idx"⟩ true
    (some "s") c9wout (by decide)

/-- A record inside the window of the year-five process date 0005-01-02,
for the C9 counterexample. -/
def c9rec : Record :=
  ⟨"reuters", Except.ok "Hi.", "u", "dd", midnight ⟨5, 1, 2⟩, 0, 0⟩

/-- The filename pattern the claim describes: the stem, then the year as
its plain decimal numeral, then zero-padded month and day. -/
def claimedFilename (stem : String) (d : Date) : String :=
  stem ++ toString d.year ++ pad2 d.month ++ pad2 d.day ++ ".txt"

/-- C9 is false as stated at this input: for the calendar date with year 5,
month 1, day 2, the file written is named `"s050102.txt"` — the year is
rendered zero-padded to two digits like the month and day — while the name
the claim describes (the stem followed by the year's plain numeral `"5"`)
is `"s50102.txt"`. -/
theorem C9_counterexample :
    main [c9rec] ["reuters"] ⟨5, 1, 2⟩ ⟨false, "idx"⟩ true (some "s") =
      Except.ok ⟨[c9rec], "s050102.txt", [countMsg 1], [countMsg 1],
        [("s050102.txt", "0\tdd\tu\nHi.\n")]⟩ ∧
    claimedFilename "s" ⟨5, 1, 2⟩ = "s50102.txt" ∧
    ("s050102.txt" : String) ≠ claimedFilename "s" ⟨5, 1, 2⟩ := by
  refine ⟨by decide, by decide, by decide⟩

end ScraperConnection
